import Mathlib

/-!
Shallow embedding of the core connection engine of a Tarantool client
library (package `tarantool`, file `connection.go`) and of the
connection-pool routing layer, together with proofs of the specified
properties.

Byte strings are modelled as `List Nat`; Go `nil`-able handles (socket,
reader, writer) are modelled as `Bool` flags (present or not); the Go map
`requests map[uint32]*Future` is modelled as an association list with
unique keys; channel-close state is a `Bool` flag, and closing an
already-closed channel is modelled as `Except.error` (a Go run-time panic).
-/

namespace Tarantool

/-- A decoded response header (`Response` after `decodeHeader`): only the
fields the connection engine itself consults. -/
structure Response where
  code : Nat
  RequestId : Nat
deriving DecidableEq, Repr

/-- A pending `Future`: `resp`/`err` are its single-assignment result
fields and `closedC` records whether its signal channel `c` has been
closed (completion). -/
structure Future where
  resp : Option Response
  err : Option String
  closedC : Bool
deriving DecidableEq, Repr

/-- Connection options (`Opts`): timeout, reconnect delay, credentials. -/
structure Opts where
  Timeout : Nat
  Reconnect : Nat
  User : String
  Pass : String
deriving DecidableEq, Repr

/-- The parsed 128-byte greeting: 64-byte version banner and the 44-byte
auth salt, kept as byte lists. -/
structure Greeting where
  version : List Nat
  auth : List Nat
deriving DecidableEq, Repr

/-- The observable state of a `Connection`: `connection`/`r`/`w` are
present-flags for the socket, reader and writer handles, `requests` is
the registry of pending futures keyed by request id, `requestId` is the
atomic id counter, and `controlClosed` records whether the `control`
channel has been closed. -/
structure ConnState where
  addr : String
  connection : Bool
  r : Bool
  w : Bool
  greeting : Greeting
  requestId : Nat
  requests : List (Nat × Future)
  opts : Opts
  closed : Bool
  controlClosed : Bool
deriving DecidableEq, Repr

/-- `Connect(addr, opts)`: builds the fresh `Connection` struct (no socket,
empty registry, id counter 0), spawns the writer and reader goroutines and
returns `(conn, err)` where `err` is never assigned (always `nil`).
The returned `Option String` is that error. -/
def Connect (addr : String) (opts : Opts) : ConnState × Option String :=
  ({ addr := addr
     connection := false
     r := false
     w := false
     greeting := { version := [], auth := [] }
     requestId := 0
     requests := []
     opts := opts
     closed := false
     controlClosed := false }, none)

/-- `closeConnection(neterr)`: under the mutex, if the socket is already
nil it returns immediately; otherwise it closes the socket, nils the
socket/reader/writer fields, and for every pending entry sets
`fut.err = neterr`, closes `fut.c` and deletes it from the registry.
The second component collects the futures completed this way (the map
iteration order of the Go map is immaterial: every entry is processed). -/
def closeConnection (neterr : String) (s : ConnState) :
    ConnState × List (Nat × Future) :=
  if s.connection = false then (s, [])
  else
    ({ s with connection := false, r := false, w := false, requests := [] },
     s.requests.map fun p => (p.1, { p.2 with err := some neterr, closedC := true }))

/-- `Close()`: sets `closed`, closes the `control` channel — in Go,
closing an already-closed channel panics at run time, modelled as
`Except.error` — and then runs `closeConnection` with the
client-closed error. -/
def Close (s : ConnState) : Except String (ConnState × List (Nat × Future)) :=
  let s1 : ConnState := { s with closed := true }
  if s1.controlClosed then Except.error "close of closed channel"
  else Except.ok (closeConnection "client closed connection"
    { s1 with controlClosed := true })

/-- `nextRequestId()`: `atomic.AddUint32(&conn.requestId, 1)` — increments
the 32-bit counter and returns the new value; uint32 arithmetic wraps
modulo `2^32`. Result: (new counter value, returned id). -/
def nextRequestId (requestId : Nat) : Nat × Nat :=
  ((requestId + 1) % 2 ^ 32, (requestId + 1) % 2 ^ 32)

/-- The value of the id counter after `n` allocations starting from 0. -/
def requestIdAfter (n : Nat) : Nat := n % 2 ^ 32

/-- The id returned by the k-th allocation (1-based) starting from
counter 0. -/
def allocatedId (k : Nat) : Nat := k % 2 ^ 32

/-- Modelled from the spec: the constant `PacketLengthBytes` (declared in
`const.go`, which is not under `src/`); the outer length marker of every
message is the fixed 5-byte form `0xCE ∥ BE32(length)`. -/
def PacketLengthBytes : Nat := 5

/-- `io.ReadFull(r, buf)` over a byte stream: reads exactly `n` bytes or
fails (short read), consuming what was available. Result: (bytes read or
error, remaining stream). -/
def readFull (n : Nat) (stream : List Nat) :
    Except String (List Nat) × List Nat :=
  if n ≤ stream.length then (Except.ok (stream.take n), stream.drop n)
  else (Except.error "unexpected EOF", stream.drop n)

/-- The frame reader `read(r)`: reads the 5-byte length header with
`io.ReadFull`, rejects a first byte other than `0xce`, assembles the
big-endian 32-bit length from bytes 1..4, rejects a zero length, and
reads exactly `length` body bytes with `io.ReadFull`. Result: (body
bytes or error, remaining stream). -/
def read (stream : List Nat) : Except String (List Nat) × List Nat :=
  match readFull PacketLengthBytes stream with
  | (Except.error e, rest) => (Except.error e, rest)
  | (Except.ok lenbuf, rest) =>
    if lenbuf.getD 0 0 ≠ 0xce then
      (Except.error "Wrong reponse header", rest)
    else
      let length := (lenbuf.getD 1 0) * 2 ^ 24 + (lenbuf.getD 2 0) * 2 ^ 16 +
        (lenbuf.getD 3 0) * 2 ^ 8 + lenbuf.getD 4 0
      if length = 0 then
        (Except.error "Response should not be 0 length", rest)
      else
        match readFull length rest with
        | (Except.error e, rest2) => (Except.error e, rest2)
        | (Except.ok body, rest2) => (Except.ok body, rest2)

/-- The body of the AUTH packet built by `writeAuthRequest`:
`body[KeyUserName] = user` and `body[KeyTuple] = ["chap-sha1", scramble]`. -/
structure AuthBody where
  userName : String
  method : String
  scr : List Nat
deriving DecidableEq, Repr

/-- Outcomes of the I/O and codec steps the auth path performs, each an
oracle for one fallible call. `decodeBodyStep` stands for
`resp.decodeBody()` (declared in `response.go`, which is not under
`src/`); modelled from the spec it fails both on malformed bodies and on
a non-zero response code. -/
structure WireEnv where
  pack : Except String Unit
  writeStep : Except String Unit
  flush : Except String Unit
  readStep : Except String Unit
  decodeHeaderStep : Except String Unit
  decodeBodyStep : Except String Unit

/-- `writeAuthRequest(w, scramble)`: builds the AUTH request carrying the
user name and the tuple `["chap-sha1", scramble]`, packs it, writes it and
flushes; each failing step aborts with a wrapped error. On success the
returned `AuthBody` is the packet body that went out on the wire. -/
def writeAuthRequest (user : String) (scr : List Nat) (env : WireEnv) :
    Except String AuthBody :=
  match env.pack with
  | Except.error e => Except.error ("auth: pack error " ++ e)
  | Except.ok _ =>
    match env.writeStep with
    | Except.error e => Except.error ("auth: write error " ++ e)
    | Except.ok _ =>
      match env.flush with
      | Except.error e => Except.error ("auth: flush error " ++ e)
      | Except.ok _ => Except.ok { userName := user, method := "chap-sha1", scr := scr }

/-- `readAuthResponse(r)`: reads one frame and decodes its header and
body; each failing step aborts with a wrapped error. -/
def readAuthResponse (env : WireEnv) : Except String Unit :=
  match env.readStep with
  | Except.error e => Except.error ("auth: read error " ++ e)
  | Except.ok _ =>
    match env.decodeHeaderStep with
    | Except.error e => Except.error ("auth: decode response header error " ++ e)
    | Except.ok _ =>
      match env.decodeBodyStep with
      | Except.error e => Except.error ("auth: decode response body error " ++ e)
      | Except.ok _ => Except.ok ()

/-- `auth(r, w)`: skips entirely when `opts.User` is empty (guest
session); otherwise requires the reader/writer and a non-empty greeting
salt, computes the scramble from the salt and the password (`scramble`
is declared in code not under `src/`, so it is passed as a function
argument), writes the AUTH request and awaits the response. On success
returns the AUTH body that was written (`none` when auth was skipped). -/
def auth (user pass : String) (greetingAuth : List Nat) (rReady wReady : Bool)
    (scrambleFn : List Nat → String → Except String (List Nat)) (env : WireEnv) :
    Except String (Option AuthBody) :=
  if user = "" then Except.ok none
  else if rReady = false ∨ wReady = false then
    Except.error "auth: reader/writer not ready"
  else if greetingAuth = [] then Except.error "auth: empty greeting"
  else
    match scrambleFn greetingAuth pass with
    | Except.error e => Except.error ("auth: scrambling failure " ++ e)
    | Except.ok scr =>
      match writeAuthRequest user scr env with
      | Except.error e => Except.error e
      | Except.ok body =>
        match readAuthResponse env with
        | Except.error e => Except.error e
        | Except.ok _ => Except.ok (some body)

/-- Oracles for `dial`'s fallible steps: the `net.Dial` outcome, the
greeting `connection.Read` outcome (the 128-byte buffer content after the
read), the scramble function and the auth wire steps. -/
structure DialEnv where
  dialOk : Except String Unit
  greetRead : Except String (List Nat)
  scrambleFn : List Nat → String → Except String (List Nat)
  wire : WireEnv

/-- The greeting buffer: `make([]byte, 128)` then `connection.Read` fills
a prefix with the bytes read, leaving the rest zero. -/
def fillGreeting (buf : List Nat) : List Nat :=
  buf.take 128 ++ List.replicate (128 - buf.length) 0

/-- The outcome of one `dial()` call: the connection state afterwards,
the returned error, and whether `connection.Close()` was called on the
freshly dialed socket. -/
structure DialResult where
  state : ConnState
  err : Option String
  socketClosed : Bool
deriving Repr

/-- The `Greeting` parsed from the filled 128-byte buffer: the banner is
bytes 0..63 and the auth salt bytes 64..107 (44 bytes). -/
def greetingOf (buf : List Nat) : Greeting :=
  { version := (fillGreeting buf).take 64, auth := ((fillGreeting buf).drop 64).take 44 }

/-- `dial()`: dials TCP; on success reads the 128-byte greeting (closing
the fresh socket on failure), stores the banner and the 44-byte salt in
`conn.Greeting`, runs `auth` over the fresh reader/writer (closing the
socket on failure), and only after both succeeded assigns
`conn.connection`, `conn.r` and `conn.w`. -/
def dial (env : DialEnv) (s : ConnState) : DialResult :=
  match env.dialOk with
  | Except.error e => { state := s, err := some e, socketClosed := false }
  | Except.ok _ =>
    match env.greetRead with
    | Except.error e => { state := s, err := some e, socketClosed := true }
    | Except.ok buf =>
      match auth s.opts.User s.opts.Pass (greetingOf buf).auth true true env.scrambleFn env.wire with
      | Except.error e =>
        { state := { s with greeting := greetingOf buf }, err := some e, socketClosed := true }
      | Except.ok _ =>
        { state := { s with greeting := greetingOf buf, connection := true, r := true, w := true }, err := none, socketClosed := false }

/-- Registry lookup `conn.requests[rid]` (keys of the Go map are unique). -/
def regLookup : List (Nat × Future) → Nat → Option Future
  | [], _ => none
  | (k, f) :: rest, rid => if k = rid then some f else regLookup rest rid

/-- Registry deletion `delete(conn.requests, rid)`: removes the (unique)
binding for `rid`. -/
def regRemove : List (Nat × Future) → Nat → List (Nat × Future)
  | [], _ => []
  | (k, f) :: rest, rid => if k = rid then rest else (k, f) :: regRemove rest rid

/-- The registry step of the reader loop, after `decodeHeader` succeeded:
if a future with the response's request id is registered, delete it from
the registry, assign `fut.resp` and close `fut.c`; otherwise log the
unexpected id and drop the response. Result: (new registry, the future
completed, whether the unexpected-id warning was logged). -/
def fulfillStep (reqs : List (Nat × Future)) (resp : Response) :
    List (Nat × Future) × Option Future × Bool :=
  match regLookup reqs resp.RequestId with
  | some fut =>
    (regRemove reqs resp.RequestId,
     some { fut with resp := some resp, closedC := true }, false)
  | none => (reqs, none, true)

/-- Modelled from the spec: the pool's routing modes (`connection_pool.go`
is not under `src/`; only its tests are). -/
inductive Mode where
  | ANY
  | RW
  | RO
  | PreferRW
  | PreferRO
deriving DecidableEq, Repr

/-- Modelled from the spec: the pool's routing state — the instances last
observed connected, read-write and read-only, with one round-robin cursor
per mode. -/
structure PoolState where
  anyList : List String
  rwList : List String
  roList : List String
  cursorANY : Nat
  cursorRW : Nat
  cursorRO : Nat
deriving DecidableEq, Repr

/-- Modelled from the spec: round-robin selection over the currently
eligible members of one set; the cursor advances on each selection; an
empty set yields no selection. -/
def roundRobin (l : List String) (cursor : Nat) : Option (String × Nat) :=
  match l with
  | [] => none
  | _ => some (l.getD (cursor % l.length) "", cursor + 1)

/-- Modelled from the spec: mode-based routing of one pool operation
(`connection_pool.go` is not under `src/`). `RW` with an empty RW set
fails with `Can't find rw instance in pool`; `RO` with an empty RO set
fails with `Can't find ro instance in pool`; `PreferRW`/`PreferRO` fall
back to the other set. Only an `Except.ok` outcome carries an instance
address to delegate the request to: on `Except.error` no connection is
consulted. -/
def getNextConnection (p : PoolState) (mode : Mode) :
    Except String (String × PoolState) :=
  match mode with
  | Mode.ANY =>
    match roundRobin p.anyList p.cursorANY with
    | none => Except.error "Can't find healthy instance in pool"
    | some (a, c) => Except.ok (a, { p with cursorANY := c })
  | Mode.RW =>
    match roundRobin p.rwList p.cursorRW with
    | none => Except.error "Can't find rw instance in pool"
    | some (a, c) => Except.ok (a, { p with cursorRW := c })
  | Mode.RO =>
    match roundRobin p.roList p.cursorRO with
    | none => Except.error "Can't find ro instance in pool"
    | some (a, c) => Except.ok (a, { p with cursorRO := c })
  | Mode.PreferRW =>
    match roundRobin p.rwList p.cursorRW with
    | some (a, c) => Except.ok (a, { p with cursorRW := c })
    | none =>
      match roundRobin p.roList p.cursorRO with
      | none => Except.error "Can't find healthy instance in pool"
      | some (a, c) => Except.ok (a, { p with cursorRO := c })
  | Mode.PreferRO =>
    match roundRobin p.roList p.cursorRO with
    | some (a, c) => Except.ok (a, { p with cursorRO := c })
    | none =>
      match roundRobin p.rwList p.cursorRW with
      | none => Except.error "Can't find healthy instance in pool"
      | some (a, c) => Except.ok (a, { p with cursorRW := c })

/-- A still-pending future, as stored in the registry. -/
def futPending : Future := { resp := none, err := none, closedC := false }

/-- Guest options: empty user name. -/
def optsGuest : Opts := { Timeout := 0, Reconnect := 0, User := "", Pass := "" }

/-- A sample connected state holding one pending future with request id 1. -/
def demoState : ConnState :=
  { addr := "127.0.0.1:3013"
    connection := true
    r := true
    w := true
    greeting := { version := [], auth := [] }
    requestId := 1
    requests := [(1, futPending)]
    opts := optsGuest
    closed := false
    controlClosed := false }

/-- The state left by a first `Close` of `demoState`: closed flag set,
control channel closed, socket/reader/writer nil, registry empty. -/
def demoClosedState : ConnState :=
  { demoState with
    closed := true
    controlClosed := true
    connection := false
    r := false
    w := false
    requests := [] }

/-- After `closeConnection` the socket is always nil, and the
control-channel state is untouched. -/
theorem closeConnection_state (e : String) (s : ConnState) :
    (closeConnection e s).1.connection = false ∧
    (closeConnection e s).1.controlClosed = s.controlClosed := by
  unfold closeConnection
  by_cases h : s.connection = false
  · simp [h]
  · simp [h]

/-- C1: on a disconnect of a connection holding an active socket,
`closeConnection` empties the registry, and the completed futures are
exactly the pending ones, each carrying the same network error and a
closed signal channel, each removed and completed exactly once. -/
theorem closeConnection_drains_registry (e : String) (s : ConnState)
    (h : s.connection = true) :
    (closeConnection e s).1.requests = [] ∧
    (closeConnection e s).2 =
      s.requests.map (fun p => (p.1, { p.2 with err := some e, closedC := true })) ∧
    (closeConnection e s).2.length = s.requests.length ∧
    ∀ p ∈ s.requests,
      (p.1, { p.2 with err := some e, closedC := true }) ∈ (closeConnection e s).2 := by
  unfold closeConnection
  simp [h]
  intro a b hab
  exact ⟨a, b, hab, rfl, rfl⟩

/-- Witness for C1 at a concrete connected state with one pending future. -/
theorem closeConnection_drains_registry_witness :
    (closeConnection "broken pipe" demoState).1.requests = [] ∧
    (closeConnection "broken pipe" demoState).2 =
      demoState.requests.map
        (fun p => (p.1, { p.2 with err := some "broken pipe", closedC := true })) ∧
    (closeConnection "broken pipe" demoState).2.length = demoState.requests.length ∧
    ∀ p ∈ demoState.requests,
      (p.1, { p.2 with err := some "broken pipe", closedC := true }) ∈
        (closeConnection "broken pipe" demoState).2 :=
  closeConnection_drains_registry "broken pipe" demoState rfl

/-- C2 counterexample: on a live connection with one pending request the
first `Close()` succeeds, but a second `Close()` panics closing the
already-closed `control` channel instead of succeeding — `Close` is not
idempotent on the code. -/
theorem Close_second_call_panics_cex :
    Close demoState = Except.ok (demoClosedState,
      [(1, { resp := none, err := some "client closed connection", closedC := true })]) ∧
    Close demoClosedState = Except.error "close of closed channel" := by
  exact ⟨rfl, rfl⟩

/-- C2 amended: after any first `Close()` that returned successfully, a
second `Close()` panics on closing the already-closed control channel;
the `closeConnection` part alone is idempotent — the socket being already
nil, it returns nil and leaves the state unchanged, completing no future. -/
theorem Close_not_idempotent (s s1 : ConnState) (futs : List (Nat × Future))
    (h : Close s = Except.ok (s1, futs)) :
    Close s1 = Except.error "close of closed channel" ∧
    ∀ e, closeConnection e s1 = (s1, []) := by
  unfold Close at h
  by_cases hc : s.controlClosed = true
  · simp [hc] at h
  · rw [if_neg] at h
    · rw [Except.ok.injEq] at h
      have h1 : s1 = (closeConnection "client closed connection"
          { s with closed := true, controlClosed := true }).1 :=
        (congrArg Prod.fst h).symm
      have hcc : s1.controlClosed = true := by
        rw [h1]
        simpa using (closeConnection_state "client closed connection" _).2
      have hconn : s1.connection = false := by
        rw [h1]
        exact (closeConnection_state "client closed connection" _).1
      constructor
      · unfold Close
        simp [hcc]
      · intro e
        unfold closeConnection
        simp [hconn]
    · simp [hc]

/-- Witness for C2's amended claim at the concrete state left by a first
`Close` of `demoState`. -/
theorem Close_not_idempotent_witness :
    Close demoClosedState = Except.error "close of closed channel" ∧
    ∀ e, closeConnection e demoClosedState = (demoClosedState, []) :=
  Close_not_idempotent demoState demoClosedState
    [(1, { resp := none, err := some "client closed connection", closedC := true })] rfl

/-- C3 counterexample: `Connect` returns with a nil error while no socket
is established — the TCP dial, the 128-byte greeting read and the auth
handshake have not completed when `Connect` returns. -/
theorem Connect_returns_before_dial_cex :
    (Connect "127.0.0.1:3013" optsGuest).2 = none ∧
    (Connect "127.0.0.1:3013" optsGuest).1.connection = false ∧
    (Connect "127.0.0.1:3013" optsGuest).1.r = false ∧
    (Connect "127.0.0.1:3013" optsGuest).1.w = false :=
  ⟨rfl, rfl, rfl, rfl⟩

/-- C3 amended: `Connect` is asynchronous — for every address and options
it returns immediately with a nil error and a connection whose socket,
reader and writer are unset and whose registry is empty; dialing, the
greeting read and authentication are performed later by the background
writer/reader goroutines through `createConnection`/`dial`. -/
theorem Connect_async (addr : String) (opts : Opts) :
    (Connect addr opts).2 = none ∧
    (Connect addr opts).1.connection = false ∧
    (Connect addr opts).1.r = false ∧
    (Connect addr opts).1.w = false ∧
    (Connect addr opts).1.requests = [] ∧
    (Connect addr opts).1.closed = false ∧
    (Connect addr opts).1.addr = addr ∧
    (Connect addr opts).1.opts = opts :=
  ⟨rfl, rfl, rfl, rfl, rfl, rfl, rfl, rfl⟩

/-- `readFull` on a stream starting with at least five bytes consumes
exactly the first five. -/
theorem readFull_five (b0 b1 b2 b3 b4 : Nat) (rest : List Nat) :
    readFull 5 (b0 :: b1 :: b2 :: b3 :: b4 :: rest) =
      (Except.ok [b0, b1, b2, b3, b4], rest) := by
  unfold readFull
  rw [if_pos]
  · simp
  · simp

/-- `readFull` succeeds exactly on streams long enough. -/
theorem readFull_of_le (n : Nat) (s : List Nat) (h : n ≤ s.length) :
    readFull n s = (Except.ok (s.take n), s.drop n) := by
  unfold readFull
  rw [if_pos h]

/-- `readFull` on a short stream fails. -/
theorem readFull_short (n : Nat) (s : List Nat) (h : s.length < n) :
    readFull n s = (Except.error "unexpected EOF", s.drop n) := by
  unfold readFull
  rw [if_neg]
  omega

/-- Reduction of the frame reader on a stream with at least the 5 prefix
bytes available. -/
theorem read_cons (b0 b1 b2 b3 b4 : Nat) (rest : List Nat) :
    read (b0 :: b1 :: b2 :: b3 :: b4 :: rest) =
      (if b0 ≠ 0xce then (Except.error "Wrong reponse header", rest)
       else if b1 * 2 ^ 24 + b2 * 2 ^ 16 + b3 * 2 ^ 8 + b4 = 0 then
         (Except.error "Response should not be 0 length", rest)
       else match readFull (b1 * 2 ^ 24 + b2 * 2 ^ 16 + b3 * 2 ^ 8 + b4) rest with
         | (Except.error e, rest2) => (Except.error e, rest2)
         | (Except.ok body, rest2) => (Except.ok body, rest2)) := by
  unfold read PacketLengthBytes
  rw [readFull_five]
  rfl

/-- C4: the frame reader consumes exactly the 5 length-prefix bytes; a
first byte other than `0xCE` is an error; otherwise bytes 1..4 are a
big-endian 32-bit length and exactly that many body bytes are read and
returned (a message body being nonempty, the declared length is
positive); a stream shorter than the 5-byte prefix is an error. -/
theorem read_frame_spec (b0 b1 b2 b3 b4 : Nat) (rest : List Nat) :
    (b0 ≠ 0xce →
      read (b0 :: b1 :: b2 :: b3 :: b4 :: rest) =
        (Except.error "Wrong reponse header", rest)) ∧
    (b0 = 0xce →
      0 < b1 * 2 ^ 24 + b2 * 2 ^ 16 + b3 * 2 ^ 8 + b4 →
      b1 * 2 ^ 24 + b2 * 2 ^ 16 + b3 * 2 ^ 8 + b4 ≤ rest.length →
      read (b0 :: b1 :: b2 :: b3 :: b4 :: rest) =
        (Except.ok (rest.take (b1 * 2 ^ 24 + b2 * 2 ^ 16 + b3 * 2 ^ 8 + b4)),
         rest.drop (b1 * 2 ^ 24 + b2 * 2 ^ 16 + b3 * 2 ^ 8 + b4)) ∧
      (rest.take (b1 * 2 ^ 24 + b2 * 2 ^ 16 + b3 * 2 ^ 8 + b4)).length =
        b1 * 2 ^ 24 + b2 * 2 ^ 16 + b3 * 2 ^ 8 + b4) ∧
    (∀ s : List Nat, s.length < PacketLengthBytes →
      (read s).1 = Except.error "unexpected EOF") := by
  refine ⟨?_, ?_, ?_⟩
  · intro hne
    rw [read_cons, if_pos hne]
  · intro he hpos hle
    rw [read_cons, if_neg (by simp [he]), if_neg (by omega),
      readFull_of_le _ _ hle]
    exact ⟨rfl, by simp [List.length_take]; omega⟩
  · intro s hs
    unfold read at *
    rw [readFull_short _ _ (by simpa [PacketLengthBytes] using hs)]

/-- Witness for C4 at a concrete frame: prefix `CE 00 00 00 02`, two body
bytes and one byte of the following frame left in the stream, and at a
frame with a bad marker. -/
theorem read_frame_spec_witness :
    read [0xce, 0, 0, 0, 2, 7, 9, 5] = (Except.ok [7, 9], [5]) ∧
    read [0xab, 0, 0, 0, 2, 7, 9, 5] =
      (Except.error "Wrong reponse header", [7, 9, 5]) := by
  constructor
  · exact ((read_frame_spec 0xce 0 0 0 2 [7, 9, 5]).2.1 rfl (by norm_num)
      (by norm_num)).1
  · exact (read_frame_spec 0xab 0 0 0 2 [7, 9, 5]).1 (by norm_num)

/-- C10: a frame whose 5-byte prefix declares a zero body length makes the
frame reader return the zero-length error, consuming only the 5 prefix
bytes and none of the following stream. -/
theorem read_zero_length (rest : List Nat) :
    read (0xce :: 0 :: 0 :: 0 :: 0 :: rest) =
      (Except.error "Response should not be 0 length", rest) := by
  rw [read_cons]
  simp

/-- C8 counterexample: after `2^32 - 1` allocations the counter holds
`4294967295`; the next allocation returns id `0`, which is not greater
than the previously returned id `4294967295` — the uint32 counter wraps. -/
theorem nextRequestId_wraps_cex :
    requestIdAfter 4294967295 = 4294967295 ∧
    (nextRequestId 4294967295).2 = 0 ∧
    ¬ 4294967295 < (nextRequestId 4294967295).2 := by
  refine ⟨?_, ?_, ?_⟩ <;> norm_num [requestIdAfter, nextRequestId]

/-- C8 amended: each allocation returns the previous counter plus one
reduced modulo `2^32`; as long as the total number of allocations on the
live connection stays below `2^32`, the returned ids are strictly
increasing and pairwise distinct. -/
theorem nextRequestId_monotone (j k : Nat) (hj : 1 ≤ j) (hjk : j < k)
    (hk : k < 2 ^ 32) :
    allocatedId j < allocatedId k ∧
    allocatedId j ≠ allocatedId k ∧
    allocatedId k = (nextRequestId (requestIdAfter (k - 1))).2 ∧
    requestIdAfter k = (nextRequestId (requestIdAfter (k - 1))).1 := by
  have h32 : (2 : Nat) ^ 32 = 4294967296 := by norm_num
  unfold allocatedId requestIdAfter nextRequestId
  rw [h32] at *
  refine ⟨?_, ?_, ?_, ?_⟩ <;> omega

/-- Witness for C8's amended claim: the first two allocations return
ids 1 and 2. -/
theorem nextRequestId_monotone_witness :
    allocatedId 1 < allocatedId 2 ∧
    allocatedId 1 ≠ allocatedId 2 ∧
    allocatedId 2 = (nextRequestId (requestIdAfter 1)).2 ∧
    requestIdAfter 2 = (nextRequestId (requestIdAfter 1)).1 :=
  nextRequestId_monotone 1 2 (by norm_num) (by norm_num) (by norm_num)

/-- A key absent from the registry looks up to `none`. -/
theorem regLookup_eq_none_of_not_mem (reqs : List (Nat × Future)) (rid : Nat)
    (h : rid ∉ reqs.map Prod.fst) : regLookup reqs rid = none := by
  induction reqs with
  | nil => rfl
  | cons p rest ih =>
    obtain ⟨k, f⟩ := p
    rw [List.map_cons, List.mem_cons] at h
    push_neg at h
    rw [regLookup, if_neg (fun hk => h.1 hk.symm)]
    exact ih h.2

/-- Removing a present key shrinks the registry by exactly one entry. -/
theorem regRemove_length (reqs : List (Nat × Future)) (rid : Nat) (fut : Future)
    (h : regLookup reqs rid = some fut) :
    (regRemove reqs rid).length + 1 = reqs.length := by
  induction reqs with
  | nil => simp [regLookup] at h
  | cons p rest ih =>
    obtain ⟨k, f⟩ := p
    by_cases hk : k = rid
    · simp [regRemove, hk]
    · rw [regLookup, if_neg hk] at h
      rw [regRemove, if_neg hk]
      simp only [List.length_cons]
      rw [← ih h]

/-- With unique keys, removal eliminates the binding: the removed key no
longer looks up. -/
theorem regLookup_regRemove (reqs : List (Nat × Future)) (rid : Nat)
    (hnd : (reqs.map Prod.fst).Nodup) :
    regLookup (regRemove reqs rid) rid = none := by
  induction reqs with
  | nil => rfl
  | cons p rest ih =>
    obtain ⟨k, f⟩ := p
    simp only [List.map_cons, List.nodup_cons] at hnd
    by_cases hk : k = rid
    · rw [regRemove, if_pos hk]
      subst hk
      exact regLookup_eq_none_of_not_mem rest k hnd.1
    · rw [regRemove, if_neg hk, regLookup, if_neg hk]
      exact ih hnd.2

/-- C6: for every response decoded by the reader loop, on a registered
request id the future is removed from the registry (which shrinks by one
and no longer maps that id) and completed with the response; on an
unregistered id the unexpected-id warning is logged and the response
dropped, the registry staying unchanged. -/
theorem fulfillStep_spec (reqs : List (Nat × Future)) (resp : Response)
    (hnd : (reqs.map Prod.fst).Nodup) :
    (regLookup reqs resp.RequestId = none →
      fulfillStep reqs resp = (reqs, none, true)) ∧
    (∀ fut, regLookup reqs resp.RequestId = some fut →
      fulfillStep reqs resp =
        (regRemove reqs resp.RequestId,
         some { fut with resp := some resp, closedC := true }, false) ∧
      (regRemove reqs resp.RequestId).length + 1 = reqs.length ∧
      regLookup (regRemove reqs resp.RequestId) resp.RequestId = none) := by
  constructor
  · intro h
    unfold fulfillStep
    rw [h]
  · intro fut h
    refine ⟨?_, regRemove_length reqs resp.RequestId fut h,
      regLookup_regRemove reqs resp.RequestId hnd⟩
    unfold fulfillStep
    rw [h]

/-- Witness for C6 at a one-entry registry: a response with the matching
id 1 removes and completes the future; a response with the unknown id 2
is logged and dropped. -/
theorem fulfillStep_spec_witness :
    fulfillStep [(1, futPending)] { code := 0, RequestId := 1 } =
      ([], some { resp := some { code := 0, RequestId := 1 }, err := none, closedC := true }, false) ∧
    fulfillStep [(1, futPending)] { code := 0, RequestId := 2 } =
      ([(1, futPending)], none, true) := by
  constructor
  · exact ((fulfillStep_spec [(1, futPending)] { code := 0, RequestId := 1 }
      (by simp)).2 futPending rfl).1
  · exact (fulfillStep_spec [(1, futPending)] { code := 0, RequestId := 2 }
      (by simp)).1 rfl

/-- C7: a pool operation requested in mode `RW` while the last-observed
read-write set is empty fails with `Can't find rw instance in pool`;
mode `RO` with an empty read-only set fails with
`Can't find ro instance in pool`; in the model only an `Except.ok`
outcome carries an instance to delegate to, so in both cases no
connection is consulted — whatever the other sets and cursors hold. -/
theorem getNextConnection_empty_set (anyL roL rwL : List String)
    (c1 c2 c3 c4 c5 c6 : Nat) :
    getNextConnection
      { anyList := anyL, rwList := [], roList := roL,
        cursorANY := c1, cursorRW := c2, cursorRO := c3 } Mode.RW =
      Except.error "Can't find rw instance in pool" ∧
    getNextConnection
      { anyList := anyL, rwList := rwL, roList := [],
        cursorANY := c4, cursorRW := c5, cursorRO := c6 } Mode.RO =
      Except.error "Can't find ro instance in pool" :=
  ⟨rfl, rfl⟩

/-- A successful `writeAuthRequest` wrote exactly the AUTH body carrying
the user name and the tuple `["chap-sha1", scramble]`. -/
theorem writeAuthRequest_ok (user : String) (scr : List Nat) (env : WireEnv)
    (b : AuthBody) (h : writeAuthRequest user scr env = Except.ok b) :
    b = { userName := user, method := "chap-sha1", scr := scr } := by
  unfold writeAuthRequest at h
  cases hp : env.pack with
  | error e => rw [hp] at h; exact absurd h (by simp)
  | ok u =>
    rw [hp] at h
    cases hw : env.writeStep with
    | error e => rw [hw] at h; exact absurd h (by simp)
    | ok u2 =>
      rw [hw] at h
      cases hf : env.flush with
      | error e => rw [hf] at h; exact absurd h (by simp)
      | ok u3 =>
        rw [hf] at h
        simpa using h.symm

/-- C5: with an empty user name the auth step is skipped entirely and
returns no error (guest session); with a user name present, a successful
`auth` has written exactly one AUTH packet whose body carries the user
name and the tuple `["chap-sha1", scramble]` with the scramble computed
from the greeting salt and the password, and has awaited the response;
and every failing step — scrambling, writing the request, or reading the
response — aborts the attempt with an error. -/
theorem auth_spec (user pass : String) (salt : List Nat)
    (scrambleFn : List Nat → String → Except String (List Nat)) (env : WireEnv) :
    (user = "" → auth user pass salt true true scrambleFn env = Except.ok none) ∧
    (user ≠ "" →
      ∀ v, auth user pass salt true true scrambleFn env = Except.ok v →
        salt ≠ [] ∧
        ∃ scr, scrambleFn salt pass = Except.ok scr ∧
          writeAuthRequest user scr env =
            Except.ok { userName := user, method := "chap-sha1", scr := scr } ∧
          readAuthResponse env = Except.ok () ∧
          v = some { userName := user, method := "chap-sha1", scr := scr }) ∧
    (user ≠ "" → salt ≠ [] →
      ∀ e, scrambleFn salt pass = Except.error e →
        auth user pass salt true true scrambleFn env =
          Except.error ("auth: scrambling failure " ++ e)) ∧
    (user ≠ "" → salt ≠ [] →
      ∀ scr e, scrambleFn salt pass = Except.ok scr →
        writeAuthRequest user scr env = Except.error e →
        auth user pass salt true true scrambleFn env = Except.error e) ∧
    (user ≠ "" → salt ≠ [] →
      ∀ scr b e, scrambleFn salt pass = Except.ok scr →
        writeAuthRequest user scr env = Except.ok b →
        readAuthResponse env = Except.error e →
        auth user pass salt true true scrambleFn env = Except.error e) := by
  refine ⟨?_, ?_, ?_, ?_, ?_⟩
  · intro hu
    unfold auth
    rw [if_pos hu]
  · intro hu v hv
    unfold auth at hv
    rw [if_neg hu, if_neg (by simp)] at hv
    by_cases hs : salt = []
    · rw [if_pos hs] at hv
      exact absurd hv (by simp)
    · rw [if_neg hs] at hv
      refine ⟨hs, ?_⟩
      cases hscr : scrambleFn salt pass with
      | error e => simp only [hscr] at hv; exact absurd hv (by simp)
      | ok scr =>
        simp only [hscr] at hv
        cases hw : writeAuthRequest user scr env with
        | error e => simp only [hw] at hv; exact absurd hv (by simp)
        | ok b =>
          simp only [hw] at hv
          cases hr : readAuthResponse env with
          | error e => simp only [hr] at hv; exact absurd hv (by simp)
          | ok u =>
            simp only [hr, Except.ok.injEq] at hv
            have hb := writeAuthRequest_ok user scr env b hw
            refine ⟨scr, rfl, by rw [hw, hb], by cases u; rfl, ?_⟩
            rw [← hb, hv]
  · intro hu hs e hscr
    unfold auth
    rw [if_neg hu, if_neg (by simp), if_neg hs, hscr]
  · intro hu hs scr e hscr hw
    unfold auth
    rw [if_neg hu, if_neg (by simp), if_neg hs]
    simp only [hscr, hw]
  · intro hu hs scr b e hscr hw hr
    unfold auth
    rw [if_neg hu, if_neg (by simp), if_neg hs]
    simp only [hscr, hw, hr]

/-- All wire steps succeeding. -/
def wireAllOk : WireEnv :=
  { pack := Except.ok (), writeStep := Except.ok (), flush := Except.ok (),
    readStep := Except.ok (), decodeHeaderStep := Except.ok (),
    decodeBodyStep := Except.ok () }

/-- Witness for C5: a guest (empty user) auth is skipped, and with user
`test` a failing scramble aborts the attempt with the wrapped error. -/
theorem auth_spec_witness :
    auth "" "pass" [65] true true (fun _ _ => Except.ok [9]) wireAllOk =
      Except.ok none ∧
    auth "test" "wrong" [65] true true (fun _ _ => Except.error "bad salt")
      wireAllOk = Except.error ("auth: scrambling failure " ++ "bad salt") := by
  constructor
  · exact (auth_spec "" "pass" [65] (fun _ _ => Except.ok [9]) wireAllOk).1 rfl
  · exact (auth_spec "test" "wrong" [65] (fun _ _ => Except.error "bad salt")
      wireAllOk).2.2.1 (by simp) (by simp) "bad salt" rfl

/-- `dial` when `net.Dial` itself fails: the error is returned, nothing
else happens. -/
theorem dial_eq_dialErr (env : DialEnv) (s : ConnState) (e : String)
    (hd : env.dialOk = Except.error e) :
    dial env s = { state := s, err := some e, socketClosed := false } := by
  unfold dial
  rw [hd]

/-- `dial` when the greeting read fails: the fresh socket is closed and
the error returned. -/
theorem dial_eq_greetErr (env : DialEnv) (s : ConnState) (u : Unit) (e : String)
    (hd : env.dialOk = Except.ok u) (hg : env.greetRead = Except.error e) :
    dial env s = { state := s, err := some e, socketClosed := true } := by
  unfold dial
  rw [hd, hg]

/-- `dial` after a successful dial and greeting read reduces to the auth
outcome. -/
theorem dial_eq_greetOk (env : DialEnv) (s : ConnState) (u : Unit) (buf : List Nat)
    (hd : env.dialOk = Except.ok u) (hg : env.greetRead = Except.ok buf) :
    dial env s =
      match auth s.opts.User s.opts.Pass (greetingOf buf).auth true true env.scrambleFn env.wire with
      | Except.error e =>
        { state := { s with greeting := greetingOf buf }, err := some e, socketClosed := true }
      | Except.ok _ =>
        { state := { s with greeting := greetingOf buf, connection := true, r := true, w := true }, err := none, socketClosed := false } := by
  unfold dial
  rw [hd, hg]

/-- C9: `dial` is atomic with respect to the connection state: whenever it
returns an error, the socket/reader/writer fields are exactly as before
the call (still disconnected), and — provided the TCP dial itself had
succeeded, so a fresh socket existed — that fresh socket has been closed;
the fields are assigned, and the socket kept open, only when `dial`
returns no error, which requires the dial, the 128-byte greeting read and
the authentication handshake all to have succeeded. -/
theorem dial_atomic (env : DialEnv) (s : ConnState) :
    (∀ e, (dial env s).err = some e →
      (dial env s).state.connection = s.connection ∧
      (dial env s).state.r = s.r ∧
      (dial env s).state.w = s.w ∧
      (∀ u, env.dialOk = Except.ok u → (dial env s).socketClosed = true)) ∧
    ((dial env s).err = none →
      (dial env s).state.connection = true ∧
      (dial env s).state.r = true ∧
      (dial env s).state.w = true ∧
      (dial env s).socketClosed = false ∧
      env.dialOk = Except.ok () ∧
      ∃ buf, env.greetRead = Except.ok buf ∧
        ∃ v, auth s.opts.User s.opts.Pass (greetingOf buf).auth
          true true env.scrambleFn env.wire = Except.ok v) := by
  cases hd : env.dialOk with
  | error e =>
    rw [dial_eq_dialErr env s e hd]
    refine ⟨?_, ?_⟩
    · intro e2 _
      exact ⟨rfl, rfl, rfl, fun u hu => absurd hu (by simp)⟩
    · intro h
      exact absurd h (by simp)
  | ok u0 =>
    cases hg : env.greetRead with
    | error e =>
      rw [dial_eq_greetErr env s u0 e hd hg]
      refine ⟨?_, ?_⟩
      · intro e2 _
        exact ⟨rfl, rfl, rfl, fun u hu => rfl⟩
      · intro h
        exact absurd h (by simp)
    | ok buf =>
      rw [dial_eq_greetOk env s u0 buf hd hg]
      cases ha : auth s.opts.User s.opts.Pass (greetingOf buf).auth
          true true env.scrambleFn env.wire with
      | error e =>
        refine ⟨?_, ?_⟩
        · intro e2 _
          exact ⟨rfl, rfl, rfl, fun u hu => rfl⟩
        · intro h
          exact absurd h (by simp)
      | ok v =>
        refine ⟨?_, ?_⟩
        · intro e2 he
          exact absurd he (by simp)
        · intro _
          refine ⟨rfl, rfl, rfl, rfl, ?_, buf, rfl, v, ha⟩
          cases u0
          rfl

/-- A freshly created, still-disconnected connection. -/
def demoDisconnected : ConnState := (Connect "127.0.0.1:3013" optsGuest).1

/-- A dial environment where every step succeeds (guest user, so auth is
skipped). -/
def demoDialEnv : DialEnv :=
  { dialOk := Except.ok ()
    greetRead := Except.ok (List.replicate 128 65)
    scrambleFn := fun _ _ => Except.ok [1, 2]
    wire := wireAllOk }

/-- Witness for C9: on an all-steps-succeed environment, `dial` from the
fresh disconnected state returns no error and assigns socket, reader and
writer without closing the socket. -/
theorem dial_atomic_witness :
    (dial demoDialEnv demoDisconnected).err = none ∧
    (dial demoDialEnv demoDisconnected).state.connection = true ∧
    (dial demoDialEnv demoDisconnected).state.r = true ∧
    (dial demoDialEnv demoDisconnected).state.w = true ∧
    (dial demoDialEnv demoDisconnected).socketClosed = false := by
  have h := (dial_atomic demoDialEnv demoDisconnected).2 rfl
  exact ⟨rfl, h.1, h.2.1, h.2.2.1, h.2.2.2.1⟩

end Tarantool







